import Mathlib

/-! Shallow embedding of the G74 fault-study core of the JK7938 SHEPD
load-estimates repository: the report parser (extract_values and
BkdyFile.process_bkdy_output of g74/psse.py), the result combination
steps (BkdyFaultStudy.combine_bkdy_output, calculate_fault_currents and
process_combined_results), the equivalent-machine infeed model
(G74FaultInfeed.calculate_machine_impedance) and the constants of
g74/constants.py that these functions use.  Parsed report values are
modelled as exact rationals; the infeed model and the asymmetrical
current formula, which use exp and sqrt, are modelled over the reals. -/

namespace G74Embed

abbrev Chars := List Char

/-- Prefix test on character lists; the first argument is the pattern. -/
def startsWithL : Chars → Chars → Bool
  | [], _ => true
  | _ :: _, [] => false
  | p :: ps, c :: cs => decide (p = c) && startsWithL ps cs

/-- Substring containment, embedding the Python `in` operator on strings. -/
def containsSub (pat : Chars) : Chars → Bool
  | [] => startsWithL pat []
  | cs@(_ :: rest) => startsWithL pat cs || containsSub pat rest

/-- Length of the maximal digit run at the head of the list. -/
def digitRun : Chars → Nat
  | [] => 0
  | c :: cs => if c.isDigit then digitRun cs + 1 else 0

def digitVal (c : Char) : Nat := c.toNat - (48 : Nat)

def digitsToNat (cs : Chars) : Nat := cs.foldl (fun a c => 10 * a + digitVal c) 0

/-- An exact decimal number: an integer mantissa over a power-of-ten
denominator.  Parsed report values are decimal literals and the only
arithmetic applied to them is negation, division by 1000, comparison
and maximum, so this represents every value of the pipeline exactly;
Dec.toRat gives its rational value. -/
structure Dec where
  num : ℤ
  shift : ℕ
deriving DecidableEq

def Dec.toRat (d : Dec) : ℚ := (d.num : ℚ) / 10 ^ d.shift

/-- Division by the power of ten 10 ^ k. -/
def Dec.divP10 (d : Dec) (k : ℕ) : Dec := ⟨d.num, d.shift + k⟩

/-- Comparison by cross-multiplication with the positive denominators. -/
def Dec.leD (a b : Dec) : Bool := decide (a.num * 10 ^ b.shift ≤ b.num * 10 ^ a.shift)

def Dec.maxD (a b : Dec) : Dec := if Dec.leD a b then b else a

def Dec.isNeg (d : Dec) : Bool := decide (d.num < 0)

/-- Value of a matched token of the shape digits-dot-digits, as an exact
decimal (the Python code converts the matched text with float()). -/
def parseUnsigned (cs : Chars) : Dec :=
  let ip := cs.takeWhile Char.isDigit
  let fp := (cs.drop (ip.length + 1)).takeWhile Char.isDigit
  ⟨(digitsToNat ip : ℤ) * 10 ^ fp.length + (digitsToNat fp : ℤ), fp.length⟩

def parseFloatTok : Chars → Dec
  | '-' :: rest => ⟨-(parseUnsigned rest).num, (parseUnsigned rest).shift⟩
  | cs => parseUnsigned cs

/- The regular expression of g74/constants.py (BkdyFileOutput.reg_search):
(Infin)|(ity)|(\x2a times 9)|(-?\d\.\d 4-5 with a negative lookahead for
digits-then-dot)|(\d 1-3 dot \d\d)|(\d+ dot \d).  Each alternative is
embedded as a positional matcher returning the match length. -/

def infinTok : Chars := "Infin".toList
def ityTok : Chars := "ity".toList
def nineStars : Chars := "*********".toList

/-- Negative lookahead for one-or-more digits followed by a dot: the
greedy digit run must not be followed by a dot. -/
def negLook (cs : Chars) : Bool :=
  let r := digitRun cs
  !(decide (1 ≤ r) && decide ((cs.drop r).head? = some '.'))

/-- Alternative 4 without the sign: one digit, a dot, then greedily five
or else four digits, subject to the negative lookahead. -/
def tryA4core (cs : Chars) : Option Nat :=
  match cs with
  | d :: '.' :: rest =>
    if d.isDigit then
      let r := digitRun rest
      if decide (5 ≤ r) && negLook (rest.drop 5) then some 7
      else if decide (4 ≤ r) && negLook (rest.drop 4) then some 6
      else none
    else none
  | _ => none

def tryA4 : Chars → Option Nat
  | '-' :: rest => (tryA4core rest).map (· + 1)
  | cs => tryA4core cs

/-- Alternative 5 at a fixed digit count k: k digits, a dot, two digits. -/
def tryA5at (cs : Chars) (k : Nat) : Option Nat :=
  if decide (k ≤ digitRun cs) then
    match cs.drop k with
    | '.' :: a :: b :: _ => if a.isDigit && b.isDigit then some (k + 3) else none
    | _ => none
  else none

/-- Alternative 5: one to three digits (greedy), a dot, two digits. -/
def tryA5 (cs : Chars) : Option Nat :=
  (tryA5at cs 3).orElse fun _ => (tryA5at cs 2).orElse fun _ => tryA5at cs 1

/-- Alternative 6: a maximal digit run, a dot, one digit. -/
def tryA6 (cs : Chars) : Option Nat :=
  let r := digitRun cs
  if decide (1 ≤ r) then
    match cs.drop r with
    | '.' :: a :: _ => if a.isDigit then some (r + 2) else none
    | _ => none
  else none

/-- One attempt of the full alternation at the current position,
returning the group index (1 to 6) and the match length. -/
def matchAlt (cs : Chars) : Option (Nat × Nat) :=
  if startsWithL infinTok cs then some (1, 5)
  else if startsWithL ityTok cs then some (2, 3)
  else if startsWithL nineStars cs then some (3, 9)
  else
    match tryA4 cs with
    | some len => some (4, len)
    | none =>
      match tryA5 cs with
      | some len => some (5, len)
      | none =>
        match tryA6 cs with
        | some len => some (6, len)
        | none => none

/-- Scanning loop of re.findall: leftmost, non-overlapping matches. -/
def scanAllAux : Nat → Chars → List (Nat × Chars)
  | 0, _ => []
  | _ + 1, [] => []
  | fuel + 1, cs@(_ :: rest) =>
    match matchAlt cs with
    | some (g, len) => (g, cs.take len) :: scanAllAux fuel (cs.drop (max len 1))
    | none => scanAllAux fuel rest

def scanAll (cs : Chars) : List (Nat × Chars) := scanAllAux cs.length cs

/-- The overflow sentinels of the source: the matched group text equals
one of nan_term1, nan_term2, nan_term3 of BkdyFileOutput. -/
def sentinelTok (s : Chars) : Bool :=
  decide (s = infinTok) || decide (s = ityTok) || decide (s = nineStars)

/-- Value appended for one regex match: 0.0 for a sentinel group,
otherwise the float value of the matched text. -/
def tokValue (t : Nat × Chars) : Dec :=
  if sentinelTok t.2 then ⟨0, 0⟩ else parseFloatTok t.2

def nanTok : Chars := "NaN".toList
def nanRep : Chars := "0.0".toList

/-- Leftmost non-overlapping replacement, embedding Python str.replace. -/
def replaceAllAux (pat rep : Chars) : Nat → Chars → Chars
  | 0, cs => cs
  | _ + 1, [] => []
  | fuel + 1, cs@(c :: rest) =>
    if startsWithL pat cs then rep ++ replaceAllAux pat rep fuel (cs.drop pat.length)
    else c :: replaceAllAux pat rep fuel rest

def pyReplace (cs pat rep : Chars) : Chars := replaceAllAux pat rep cs.length cs

/-- BkdyFileOutput.infinity_error: a run of seven asterisk characters. -/
def sevenStars : Chars := "*******".toList
def infinityTok : Chars := "Infinity".toList

/-- Embedding of extract_values of g74/psse.py: NaN literals are
replaced by 0.0, the regex is scanned over the line, sentinel matches
become 0.0, and a length mismatch raises unless the line contains the
seven-asterisk infinity_error marker or the word Infinity. -/
def extract_values (line : Chars) (expected_length : Nat) : Except String (List Dec) :=
  let l := pyReplace line nanTok nanRep
  let extracted := (scanAll l).map tokValue
  if extracted.length ≠ expected_length ∧ 0 < expected_length ∧
      containsSub sevenStars l = false ∧ containsSub infinityTok l = false
  then Except.error "Not possible to reliably process results, see log output"
  else Except.ok extracted

/- Column-name constants of BkdyFileOutput in g74/constants.py, with
convert_to_kA = True so current_unit = kA and num_to_kA = 1000.  The
apostrophes of the Ik column label are written with hex escapes. -/

namespace BkdyFileOutput

def start : String := "FAULTED BUS"
def current : String := "FAULT CURRENT"
def impedance : String := "THEVENIN IMPEDANCE"

/-- num_to_kA = 1000: output currents are divided by 10 ^ 3. -/
def kA_pow : ℕ := 3

def ik11 : String := "Ik\x27\x27 (kA)"
def ip : String := "Ip (kA)"
def ip_method1 : String := "Ip sum of DC(kA)"
def ip_method2 : String := "Ip X/R method (kA)"
def ibsym : String := "Ibsym (kA)"
def ibasym : String := "Ibasym (kA)"
def ibasym_method1 : String := "Ibasym (kA)"
def ibasym_method2 : String := "Ibasym (kA)"
def idc : String := "DC (kA)"
def idc_method1 : String := "DC from sum of DC(kA)"
def idc_method2 : String := "DC X/R method(kA)"
def v_prefault : String := "V Pre-fault (p.u.)"
def x : String := "X (p.u. on 100 MVA)"
def r : String := "R (p.u. on 100 MVA)"

/-- Column positions for a FAULT CURRENT line, in the insertion order of
BkdyFileOutput.col_positions; the expected length is 7. -/
def currentCols : List (String × Nat) :=
  [(ik11, 0), (ibsym, 2), (idc_method1, 4), (ibasym_method1, 5), (ip_method1, 6)]

/-- Column positions for a THEVENIN IMPEDANCE line; expected length 7. -/
def impedanceCols : List (String × Nat) :=
  [(r, 0), (x, 1), (v_prefault, 2), (idc_method2, 4), (ibasym_method2, 5), (ip_method2, 6)]

end BkdyFileOutput

/-- Association-list update with insertion at the tail for a new key,
modelling assignment to a dict entry or a DataFrame cell. -/
def updAssoc {κ α : Type} [DecidableEq κ] (k : κ) (v : α) : List (κ × α) → List (κ × α)
  | [] => [(k, v)]
  | (k1, v1) :: rest => if k1 = k then (k, v) :: rest else (k1, v1) :: updAssoc k v rest

def getAssoc {κ α : Type} [DecidableEq κ] (k : κ) : List (κ × α) → Option α
  | [] => none
  | (k1, v1) :: rest => if k1 = k then some v1 else getAssoc k rest

/-- A parsed per-bus results table: bus number to row, row being column
label to value. -/
abbrev Row := List (String × Dec)
abbrev Df := List (Nat × Row)

def dfSet (df : Df) (b : Nat) (name : String) (v : Dec) : Df :=
  updAssoc b (updAssoc name v ((getAssoc b df).getD [])) df

/-- Writes one extracted value per mapped column into the row of bus b,
with the unit conversion conv applied; indexing past the end of the
extracted list is the IndexError of the Python list indexing. -/
def writeCols (b : Nat) (vals : List Dec) (conv : Nat → Dec → Dec) :
    List (String × Nat) → Df → Except String Df
  | [], df => Except.ok df
  | (name, i) :: rest, df =>
    match vals[i]? with
    | some v => writeCols b vals conv rest (dfSet df b name (conv i v))
    | none => Except.error "IndexError"

/-- First run of digits in the line, as the regex search for one or more
digits used to find the faulted-bus number. -/
def firstNat : Chars → Option Nat
  | [] => none
  | c :: cs =>
    if c.isDigit then some (digitsToNat ((c :: cs).takeWhile Char.isDigit))
    else firstNat cs

structure ProcState where
  bus : Nat
  started : Bool
  df : Df

def startMarkC : Chars := BkdyFileOutput.start.toList
def currentMarkC : Chars := BkdyFileOutput.current.toList
def impedanceMarkC : Chars := BkdyFileOutput.impedance.toList

/-- One iteration of the line loop of BkdyFile.process_bkdy_output:
lines before the FAULTED BUS marker are skipped, the first line carrying
digits while no bus is pending sets the bus number, FAULT CURRENT and
THEVENIN IMPEDANCE lines are extracted and written into the table, and
an impedance line closes the bus section. -/
def processLine (st : ProcState) (line : Chars) : Except String ProcState :=
  if !st.started && !containsSub startMarkC line then Except.ok st
  else if containsSub startMarkC line then Except.ok { st with started := true }
  else if (firstNat line).isSome && decide (st.bus = 0) then
    Except.ok { st with bus := (firstNat line).getD 0 }
  else if containsSub currentMarkC line then
    match extract_values line 7 with
    | Except.error e => Except.error e
    | Except.ok vals =>
      match writeCols st.bus vals (fun _ v => v.divP10 BkdyFileOutput.kA_pow)
          BkdyFileOutput.currentCols st.df with
      | Except.error e => Except.error e
      | Except.ok df2 => Except.ok { st with df := df2 }
  else if containsSub impedanceMarkC line then
    match extract_values line 7 with
    | Except.error e => Except.error e
    | Except.ok vals =>
      match writeCols st.bus vals
          (fun i v => if 3 < i then v.divP10 BkdyFileOutput.kA_pow else v)
          BkdyFileOutput.impedanceCols st.df with
      | Except.error e => Except.error e
      | Except.ok df2 => Except.ok { st with df := df2, bus := 0 }
  else Except.ok st

def process_lines : List Chars → ProcState → Except String ProcState
  | [], st => Except.ok st
  | l :: ls, st =>
    match processLine st l with
    | Except.error e => Except.error e
    | Except.ok st2 => process_lines ls st2

/-- Row-wise maximum of two optional values, as the pandas max over the
two method columns with NaN skipped. -/
def optMax : Option Dec → Option Dec → Option Dec
  | some a, some b => some (Dec.maxD a b)
  | some a, none => some a
  | none, some b => some b
  | none, none => none

/-- Appends the derived Ip and DC columns as the maximum of the
sum-of-DC method and the X/R method values. -/
def addMaxRow (row : Row) : Row :=
  let row1 :=
    match optMax (getAssoc BkdyFileOutput.ip_method1 row)
        (getAssoc BkdyFileOutput.ip_method2 row) with
    | some v => updAssoc BkdyFileOutput.ip v row
    | none => row
  match optMax (getAssoc BkdyFileOutput.idc_method1 row1)
      (getAssoc BkdyFileOutput.idc_method2 row1) with
  | some v => updAssoc BkdyFileOutput.idc v row1
  | none => row1

/-- Embedding of BkdyFile.process_bkdy_output: runs the line loop from a
fresh state and appends the best-of-two-methods Ip and DC columns. -/
def process_bkdy_output (lines : List Chars) : Except String Df :=
  match process_lines lines ⟨0, false, []⟩ with
  | Except.error e => Except.error e
  | Except.ok st => Except.ok (st.df.map fun p => (p.1, addMaxRow p.2))

/-- Buses present in any of the per-fault-time tables being combined. -/
def combinedBuses (dfs : List (ℚ × Df)) : List Nat :=
  (dfs.flatMap fun td => td.2.map Prod.fst).dedup

/-- True when some contributing table holds a negative Thevenin X for
bus b: the boolean mask and the drop of all-NaN rows used in
BkdyFaultStudy.combine_bkdy_output keep exactly these rows. -/
def busHasNegX (dfs : List (ℚ × Df)) (b : Nat) : Bool :=
  dfs.any fun td =>
    match getAssoc b td.2 with
    | some row =>
      match getAssoc BkdyFileOutput.x row with
      | some v => v.isNeg
      | none => false
    | none => false

/-- Embedding of BkdyFaultStudy.combine_bkdy_output: returns the bus
index of the combined table (all rows kept) and the extended
unreliable_faulted_buses list. -/
def combine_bkdy_output (unreliable_faulted_buses : List Nat) (dfs : List (ℚ × Df)) :
    List Nat × List Nat :=
  let buses := combinedBuses dfs
  (buses, unreliable_faulted_buses ++ buses.filter (busHasNegX dfs))

namespace G74

/-- G74.min_fault_time of g74/constants.py: the minimum fault time that
must be present in the study request. -/
def min_fault_time : ℚ := 0

/-- G74.peak_fault_time: the time used for the peak fault current. -/
def peak_fault_time : ℚ := 1 / 100

end G74

/-- Embedding of the fault-time preparation of
BkdyFaultStudy.calculate_fault_currents: the minimal and peak fault
times are appended when missing (each with a warning) and the list is
sorted ascending.  Returns the prepared list and the two warning flags. -/
def calculate_fault_times (fault_times : List ℚ) : List ℚ × Bool × Bool :=
  let warn_min := decide (G74.min_fault_time ∉ fault_times)
  let l1 :=
    if G74.min_fault_time ∈ fault_times then fault_times
    else fault_times ++ [G74.min_fault_time]
  let warn_peak := decide (G74.peak_fault_time ∉ l1)
  let l2 := if G74.peak_fault_time ∈ l1 then l1 else l1 ++ [G74.peak_fault_time]
  (l2.insertionSort (· ≤ ·), warn_min, warn_peak)

/-- The per-fault-time runs of the study loop: one table entry per
prepared fault time, keyed by the time as in the bkdy_files dict. -/
def study_result {α : Type} (run : ℚ → α) (fault_times : List ℚ) : List (ℚ × α) :=
  ((calculate_fault_times fault_times).1).map fun t => (t, run t)

/-- Embedding of the control flow of BkdyFaultStudy.main around the
psspy.bkdy call: a positive ierr produces a critical log message, the
output file is registered in bkdy_files in every case, and no exception
is raised.  Returns the critical-logged flag and the updated registry. -/
def bkdy_main {κ : Type} [DecidableEq κ] (bkdy_files : List (κ × String × ℚ)) (name : κ)
    (output_file : String) (fault_time : ℚ) (ierr : ℤ) :
    Except String (Bool × List (κ × String × ℚ)) :=
  Except.ok (decide (0 < ierr), updAssoc name (output_file, fault_time) bkdy_files)

/- Equivalent-machine infeed model of G74FaultInfeed, over the reals. -/

namespace G74

/-- Assumed X/R ratio of the equivalent motor (x_r_33 = x_r_11 = 2.76). -/
def x_r_33 : ℝ := 2.76

/-- G74.rpos: positive-sequence resistance of the equivalent machine on
a base impedance of 1.0 p.u. -/
noncomputable def rpos : ℝ := Real.sqrt (1 / (1 + x_r_33 ^ 2))

/-- G74.x11: the subtransient reactance of the equivalent machine used
as the decaying source-side reactance for both voltage tiers. -/
noncomputable def x11 : ℝ := Real.sqrt (1 - rpos ^ 2)

/-- G74.t11: machine time constant of the standard, in seconds. -/
def t11 : ℝ := 0.04

def rzero : ℝ := 10000
def xzero : ℝ := 10000

/-- Transformer impedance between the 33 kV and 11 kV representation. -/
def tx_r : ℝ := 0.04
def tx_x : ℝ := 0.6

end G74

namespace PSSEc

/-- PSSE.min_fault_time of g74/constants.py: the minimal fault time the
engine can consider; the threshold used by the impedance update. -/
def min_fault_time : ℝ := 0.0001

end PSSEc

/-- The machine parameter fields written for one equivalent machine. -/
structure MachineRow where
  rpos : ℝ
  tx_r : ℝ
  tx_x : ℝ
  xsubtr : ℝ
  xtrans : ℝ
  xsynch : ℝ
  rneg : ℝ
  xneg : ℝ
  rzero : ℝ
  xzero : ℝ
  xsource : ℝ
  rsource : ℝ

/-- G74.parameters_33: template for loads above the 11 kV threshold (no
series transformer impedance). -/
noncomputable def parameters_33 : MachineRow :=
  { rpos := G74.rpos, tx_r := 0, tx_x := 0, xsubtr := G74.x11, xtrans := G74.x11
    xsynch := G74.x11, rneg := G74.rpos, xneg := G74.x11, rzero := G74.rzero
    xzero := G74.xzero, xsource := G74.x11, rsource := G74.rpos }

/-- G74.parameters_11: template for loads at or below 11 kV, with the
fixed 33/11 kV transformer series impedance removed from the machine
and carried in the tx fields. -/
noncomputable def parameters_11 : MachineRow :=
  { rpos := G74.rpos - G74.tx_r, tx_r := G74.tx_r, tx_x := G74.tx_x
    xsubtr := G74.x11 - G74.tx_x, xtrans := G74.x11 - G74.tx_x
    xsynch := G74.x11 - G74.tx_x, rneg := G74.rpos - G74.tx_r
    xneg := G74.x11 - G74.tx_x, rzero := G74.rzero, xzero := G74.xzero
    xsource := G74.x11 - G74.tx_x, rsource := G74.rpos - G74.tx_r }

/-- The x_value computed by G74FaultInfeed.calculate_machine_impedance
from equation 9.5.2 of the standard: the subtransient reactance at or
below the minimal fault time, else its reciprocal decay. -/
noncomputable def g74_x_of_t (fault_time : ℝ) : ℝ :=
  if PSSEc.min_fault_time < fault_time then
    1 / ((1 / G74.x11) * Real.exp (-fault_time / G74.t11))
  else G74.x11

/-- Embedding of G74FaultInfeed.calculate_machine_impedance for one
machine row: the three reactance slots are first assigned x_value and
the transformer series reactance column is then subtracted from them. -/
noncomputable def calculate_machine_impedance (fault_time : ℝ) (m : MachineRow) :
    MachineRow :=
  let x_value := g74_x_of_t fault_time
  let m1 : MachineRow := { m with xsubtr := x_value, xtrans := x_value, xsynch := x_value }
  { m1 with
    xsubtr := m1.xsubtr - m1.tx_x
    xtrans := m1.xtrans - m1.tx_x
    xsynch := m1.xsynch - m1.tx_x }

/- Result combination of BkdyFaultStudy.calculate_fault_currents and
process_combined_results, over real-valued tables keyed by fault time
and column label. -/

/-- Embedding of the merge step df.update on the Ibsym columns: the
symmetrical breaking current is taken from the decrement pass, every
other column keeps the initial-pass value. -/
def mergePasses (df_init df_decr : ℚ × String → ℝ) : ℚ × String → ℝ :=
  fun tc => if tc.2 = BkdyFileOutput.ibsym then df_decr tc else df_init tc

/-- The recomputed asymmetrical breaking current of
process_combined_results: sqrt of half the square of sqrt-two times the
symmetrical current, plus the square of the DC component. -/
noncomputable def recompute_ibasym (ibsym_v dc_v : ℝ) : ℝ :=
  Real.sqrt ((ibsym_v * Real.sqrt 2) ^ 2 / 2 + dc_v ^ 2)

namespace SHEPD

def cols_for_min_fault_time : List String :=
  [BkdyFileOutput.ik11, BkdyFileOutput.ibsym, BkdyFileOutput.ibasym,
   BkdyFileOutput.idc, BkdyFileOutput.x, BkdyFileOutput.r]

def cols_for_peak_fault_time : List String :=
  [BkdyFileOutput.ip, BkdyFileOutput.ibsym, BkdyFileOutput.ibasym, BkdyFileOutput.idc]

def cols_for_other_fault_time : List String :=
  [BkdyFileOutput.ibsym, BkdyFileOutput.ibasym, BkdyFileOutput.idc]

end SHEPD

def x_r_label : String := "X/R"

/-- Python round to three decimal places, used to classify each fault
time (round to nearest, ties rounded up, an adequate model away from
exact half-thousandths). -/
def roundQ3 (t : ℚ) : ℚ := (round (t * 1000) : ℤ) / 1000

/-- Embedding of one fault time of process_combined_results: the column
set is selected by the time classification (adding the X/R ratio for
the minimal time) and the asymmetrical current column is overwritten by
the recombination formula applied to the merged Ibsym and DC values. -/
noncomputable def process_one_time (fault_time : ℚ) (row : String → ℝ) :
    String → Option ℝ :=
  let base_cols :=
    if roundQ3 fault_time = G74.min_fault_time then
      SHEPD.cols_for_min_fault_time ++ [x_r_label]
    else if roundQ3 fault_time = G74.peak_fault_time then
      SHEPD.cols_for_peak_fault_time
    else SHEPD.cols_for_other_fault_time
  fun col =>
    if col ∈ base_cols then
      if col = BkdyFileOutput.ibasym then
        some (recompute_ibasym (row BkdyFileOutput.ibsym) (row BkdyFileOutput.idc))
      else if col = x_r_label then
        some (row BkdyFileOutput.x / row BkdyFileOutput.r)
      else some (row col)
    else none

/- Concrete report fragments used to evaluate the embedding. -/

/-- A FAULT CURRENT line with exactly seven extractable numeric tokens. -/
def exCurrentLine : Chars :=
  "X FAULT CURRENT 111.1 22.22 333.3 44.44 555.5 666.6 777.7".toList

/-- A THEVENIN IMPEDANCE line whose reactance field holds the
nine-asterisk overflow sentinel, with seven extracted tokens in total. -/
def exImpedanceLine : Chars :=
  "Y THEVENIN IMPEDANCE 0.12345 ********* 1.01000 9.99 888.8 999.9 123.4".toList

/-- A one-bus transient report whose Thevenin X overflowed. -/
def exReportLines : List Chars :=
  ["SOME HEADER".toList,
   " FAULTED BUS ".toList,
   " 100 STATION A 33.000".toList,
   exCurrentLine,
   exImpedanceLine]

/-- The parsed table of the example report. -/
def exDf : Df := (process_bkdy_output exReportLines).toOption.getD []

/-- A line holding only the seven-asterisk infinity_error marker. -/
def exSevenStarLine : Chars := "*******".toList

def exceptOk {ε α : Type} : Except ε α → Bool
  | Except.ok _ => true
  | Except.error _ => false

/- Theorems. -/

theorem getAssoc_updAssoc_self {κ α : Type} [DecidableEq κ] (k : κ) (v : α) :
    ∀ l : List (κ × α), getAssoc k (updAssoc k v l) = some v := by
  intro l
  induction l with
  | nil => simp [updAssoc, getAssoc]
  | cons p rest ih =>
    by_cases h : p.1 = k
    · cases p
      simp_all [updAssoc, getAssoc]
    · cases p
      simp_all [updAssoc, getAssoc]

/-- Claim C5: in the merged per-bus, per-fault-time result only the
symmetrical breaking current Ibsym is taken from the decrement pass;
the initial symmetrical current, peak, DC component, Thevenin R and X
all keep the initial-pass value unchanged. -/
theorem c5_merge_only_ibsym (df_init df_decr : ℚ × String → ℝ) (t : ℚ) :
    mergePasses df_init df_decr (t, BkdyFileOutput.ibsym)
      = df_decr (t, BkdyFileOutput.ibsym)
    ∧ mergePasses df_init df_decr (t, BkdyFileOutput.ik11)
      = df_init (t, BkdyFileOutput.ik11)
    ∧ mergePasses df_init df_decr (t, BkdyFileOutput.ip)
      = df_init (t, BkdyFileOutput.ip)
    ∧ mergePasses df_init df_decr (t, BkdyFileOutput.idc)
      = df_init (t, BkdyFileOutput.idc)
    ∧ mergePasses df_init df_decr (t, BkdyFileOutput.r)
      = df_init (t, BkdyFileOutput.r)
    ∧ mergePasses df_init df_decr (t, BkdyFileOutput.x)
      = df_init (t, BkdyFileOutput.x) := by
  exact ⟨rfl, rfl, rfl, rfl, rfl, rfl⟩

/-- Claim C6: the runner appends the minimal and the peak fault time to
the requested list when missing (warning exactly in that case), sorts
the list ascending, and the per-time result table contains an entry for
both of these times. -/
theorem c6_fault_time_injection {α : Type} (run : ℚ → α) (fault_times : List ℚ) :
    G74.min_fault_time ∈ (calculate_fault_times fault_times).1
    ∧ G74.peak_fault_time ∈ (calculate_fault_times fault_times).1
    ∧ List.Sorted (· ≤ ·) (calculate_fault_times fault_times).1
    ∧ ((calculate_fault_times fault_times).2.1 = true ↔ G74.min_fault_time ∉ fault_times)
    ∧ ((calculate_fault_times fault_times).2.2 = true ↔ G74.peak_fault_time ∉ fault_times)
    ∧ (G74.min_fault_time, run G74.min_fault_time) ∈ study_result run fault_times
    ∧ (G74.peak_fault_time, run G74.peak_fault_time) ∈ study_result run fault_times := by
  have hne : G74.peak_fault_time ≠ G74.min_fault_time := by
    simp [G74.peak_fault_time, G74.min_fault_time]
  set l1 := if G74.min_fault_time ∈ fault_times then fault_times
    else fault_times ++ [G74.min_fault_time] with hl1
  set l2 := if G74.peak_fault_time ∈ l1 then l1 else l1 ++ [G74.peak_fault_time] with hl2
  have hres : calculate_fault_times fault_times
      = (l2.insertionSort (· ≤ ·), decide (G74.min_fault_time ∉ fault_times),
          decide (G74.peak_fault_time ∉ l1)) := by
    simp only [calculate_fault_times, hl1, hl2]
  have hmin1 : G74.min_fault_time ∈ l1 := by
    by_cases h : G74.min_fault_time ∈ fault_times <;> simp [hl1, h]
  have hmin2 : G74.min_fault_time ∈ l2 := by
    by_cases h : G74.peak_fault_time ∈ l1 <;> simp [hl2, h, hmin1]
  have hpeak2 : G74.peak_fault_time ∈ l2 := by
    by_cases h : G74.peak_fault_time ∈ l1 <;> simp [hl2, h]
  have hperm := List.perm_insertionSort (fun a b : ℚ => a ≤ b) l2
  have hminr : G74.min_fault_time ∈ (calculate_fault_times fault_times).1 := by
    rw [hres]
    exact hperm.mem_iff.mpr hmin2
  have hpeakr : G74.peak_fault_time ∈ (calculate_fault_times fault_times).1 := by
    rw [hres]
    exact hperm.mem_iff.mpr hpeak2
  have hpl1 : G74.peak_fault_time ∈ l1 ↔ G74.peak_fault_time ∈ fault_times := by
    by_cases h : G74.min_fault_time ∈ fault_times
    · simp [hl1, h]
    · simp [hl1, h, hne]
  refine ⟨hminr, hpeakr, ?_, ?_, ?_, ?_, ?_⟩
  · rw [hres]
    exact List.sorted_insertionSort (fun a b : ℚ => a ≤ b) l2
  · rw [hres]
    simp
  · rw [hres]
    simp [hpl1]
  · exact List.mem_map.mpr ⟨G74.min_fault_time, hminr, rfl⟩
  · exact List.mem_map.mpr ⟨G74.peak_fault_time, hpeakr, rfl⟩

/-- Claim C7: running the machine-impedance update twice with the same
fault time writes exactly the same machine parameter values as running
it once; in particular the transformer-reactance subtraction does not
accumulate. -/
theorem c7_update_idempotent (fault_time : ℝ) (m : MachineRow) :
    calculate_machine_impedance fault_time (calculate_machine_impedance fault_time m)
      = calculate_machine_impedance fault_time m := by
  cases m
  simp [calculate_machine_impedance]

/-- Claim C8 counterexample: with a non-zero engine status (ierr = 1)
the run does not fail: no exception is produced and the output file is
still registered as a usable result for its fault time. -/
theorem c8_counterexample :
    (1 : ℤ) ≠ 0
    ∧ exceptOk (bkdy_main [] "0.01" "fault_ik_init" (1 / 100) 1) = true
    ∧ (bkdy_main [] "0.01" "fault_ik_init" (1 / 100) 1).toOption.map
        (fun p => getAssoc "0.01" p.2)
      = some (some ("fault_ik_init", (1 : ℚ) / 100)) := by
  refine ⟨by decide, rfl, rfl⟩

/-- Claim C8 amended: a non-zero (positive) engine status from the
breaker-duty call is logged as a critical message, but no exception is
raised and the output file is still registered in the result registry
for that fault time. -/
theorem c8_engine_error_logged_not_raised {κ : Type} [DecidableEq κ]
    (bkdy_files : List (κ × String × ℚ))
    (name : κ) (output_file : String) (fault_time : ℚ) (ierr : ℤ) :
    bkdy_main bkdy_files name output_file fault_time ierr
      = Except.ok (decide (0 < ierr), updAssoc name (output_file, fault_time) bkdy_files)
    ∧ getAssoc name (updAssoc name (output_file, fault_time) bkdy_files)
      = some (output_file, fault_time) :=
  ⟨rfl, getAssoc_updAssoc_self name (output_file, fault_time) bkdy_files⟩

/-- Claim C10: a bus whose Thevenin reactance is negative in some
contributing per-fault-time table is appended to the
unreliable-faulted-buses list while its row stays in the combined
output index. -/
theorem c10_negative_x_unreliable (unreliable : List Nat) (dfs : List (ℚ × Df)) (b : Nat)
    (hb : b ∈ combinedBuses dfs) (hneg : busHasNegX dfs b = true) :
    b ∈ (combine_bkdy_output unreliable dfs).2
    ∧ b ∈ (combine_bkdy_output unreliable dfs).1 := by
  unfold combine_bkdy_output
  refine ⟨?_, hb⟩
  simp only [List.mem_append, List.mem_filter]
  exact Or.inr ⟨hb, hneg⟩

/-- Stated from the spec wording of claim C1 for comparison with the
code: X(t) equals the source-side tier subtransient reactance when t is
at or below the minimal-fault-time threshold, and the reciprocal of
(1 divided by the subtransient reactance) times exp of minus t over the
machine time constant otherwise. -/
noncomputable def spec_x_of_t (t : ℝ) : ℝ :=
  if t ≤ PSSEc.min_fault_time then G74.x11
  else 1 / ((1 / G74.x11) * Real.exp (-t / G74.t11))

/-- Claim C1: the time-dependent update writes X(t) of the spec formula
into all three reactance slots, less the machine's transformer series
reactance, which is the fixed tier value for tier-B machines and zero
for tier-A machines. -/
theorem c1_machine_impedance_update (fault_time : ℝ) (m : MachineRow) :
    (calculate_machine_impedance fault_time m).xsubtr = spec_x_of_t fault_time - m.tx_x
    ∧ (calculate_machine_impedance fault_time m).xtrans = spec_x_of_t fault_time - m.tx_x
    ∧ (calculate_machine_impedance fault_time m).xsynch = spec_x_of_t fault_time - m.tx_x
    ∧ parameters_33.tx_x = 0
    ∧ parameters_11.tx_x = G74.tx_x := by
  have hx : g74_x_of_t fault_time = spec_x_of_t fault_time := by
    by_cases h : fault_time ≤ PSSEc.min_fault_time
    · simp [g74_x_of_t, spec_x_of_t, h, not_lt.mpr h]
    · simp [g74_x_of_t, spec_x_of_t, h, lt_of_not_ge h]
  refine ⟨?_, ?_, ?_, rfl, rfl⟩ <;>
    simp [calculate_machine_impedance, hx]

theorem recompute_ibasym_comm (a b : ℝ) :
    recompute_ibasym a b = Real.sqrt ((Real.sqrt 2 * a) ^ 2 / 2 + b ^ 2) := by
  unfold recompute_ibasym
  ring_nf

/-- Claim C4: in the final table the asymmetrical breaking current for
every fault time is the recombination formula sqrt of (sqrt-two times
Ibsym) squared over two plus DC squared, computed from the merged Ibsym
and DC values; at Ibsym = 3 and DC = 0.5 the value is within 0.001 of
3.041. -/
theorem c4_ibasym_recomputed :
    (∀ (df_init df_decr : ℚ × String → ℝ) (t : ℚ),
        process_one_time t (fun col => mergePasses df_init df_decr (t, col))
            BkdyFileOutput.ibasym
          = some (Real.sqrt
              ((Real.sqrt 2 * mergePasses df_init df_decr (t, BkdyFileOutput.ibsym)) ^ 2 / 2
                + mergePasses df_init df_decr (t, BkdyFileOutput.idc) ^ 2)))
    ∧ |recompute_ibasym 3 (1 / 2) - 3.041| < 1 / 1000 := by
  constructor
  · intro df_init df_decr t
    unfold process_one_time
    by_cases h1 : roundQ3 t = G74.min_fault_time
    · rw [if_pos h1, if_pos (by decide), if_pos rfl, recompute_ibasym_comm]
    · by_cases h2 : roundQ3 t = G74.peak_fault_time
      · rw [if_neg h1, if_pos h2, if_pos (by decide), if_pos rfl, recompute_ibasym_comm]
      · rw [if_neg h1, if_neg h2, if_pos (by decide), if_pos rfl, recompute_ibasym_comm]
  · have h0 : recompute_ibasym 3 (1 / 2) = Real.sqrt (37 / 4) := by
      unfold recompute_ibasym
      rw [mul_pow, Real.sq_sqrt (by norm_num : (0 : ℝ) ≤ 2)]
      norm_num
    rw [h0]
    have hs := Real.sq_sqrt (show (0 : ℝ) ≤ 37 / 4 by norm_num)
    have hnn := Real.sqrt_nonneg (37 / 4 : ℝ)
    rw [abs_sub_lt_iff]
    constructor <;> nlinarith [hs, hnn]

/-- Claim C3 counterexample: a line consisting of the seven-asterisk
infinity_error marker produces no extracted values (a count mismatch
against the expected seven) and contains none of the claimed overflow
sentinels (no nine-asterisk run, no Infin or ity token), yet
extract_values tolerates it and raises nothing. -/
theorem c3_counterexample :
    exceptOk (extract_values exSevenStarLine 7) = true
    ∧ (scanAll (pyReplace exSevenStarLine nanTok nanRep)).length ≠ 7
    ∧ containsSub nineStars exSevenStarLine = false
    ∧ containsSub infinTok exSevenStarLine = false
    ∧ containsSub ityTok exSevenStarLine = false := by
  refine ⟨rfl, by decide, rfl, rfl, rfl⟩

/-- Claim C3 amended: extract_values raises its hard format error
exactly when the extracted count differs from a positive expected count
and the NaN-replaced line contains neither a seven-asterisk run nor the
unbroken word Infinity (rather than the nine-asterisk or wrapped
Infin-ity sentinels of the claim). -/
theorem c3_raise_condition (line : Chars) (expected : Nat) :
    exceptOk (extract_values line expected) = false ↔
      ((scanAll (pyReplace line nanTok nanRep)).length ≠ expected
        ∧ 0 < expected
        ∧ containsSub sevenStars (pyReplace line nanTok nanRep) = false
        ∧ containsSub infinityTok (pyReplace line nanTok nanRep) = false) := by
  simp only [extract_values]
  split_ifs with h
  · simp only [exceptOk]
    constructor
    · intro _
      simpa [List.length_map] using h
    · intro _
      trivial
  · simp only [exceptOk]
    constructor
    · intro hfalse
      exact absurd hfalse (by simp)
    · intro hcond
      exact absurd (by simpa [List.length_map] using hcond) h

theorem extract_values_ok_shape (line : Chars) (expected : Nat) (vals : List Dec)
    (h : extract_values line expected = Except.ok vals) :
    vals = (scanAll (pyReplace line nanTok nanRep)).map tokValue := by
  simp only [extract_values] at h
  split_ifs at h
  exact (Except.ok.inj h).symm

/-- Claim C2 amended: a sentinel match is parsed as the value 0.0, but
the owning busbar enters the unreliable-faulted-buses list exactly when
it was already there or some contributing table holds a negative
Thevenin X for it; a sentinel-coerced zero on its own does not flag the
bus. -/
theorem c2_sentinel_zero_and_unreliable :
    (∀ (line : Chars) (expected : Nat) (vals : List Dec) (i g : ℕ) (s : Chars),
        extract_values line expected = Except.ok vals →
        (scanAll (pyReplace line nanTok nanRep))[i]? = some (g, s) →
        sentinelTok s = true →
        vals[i]?.map Dec.toRat = some 0)
    ∧ (∀ (un : List Nat) (dfs : List (ℚ × Df)) (b : Nat),
        b ∈ (combine_bkdy_output un dfs).2 ↔
          b ∈ un ∨ (b ∈ combinedBuses dfs ∧ busHasNegX dfs b = true)) := by
  constructor
  · intro line expected vals i g s hok hget hsent
    have hvals := extract_values_ok_shape line expected vals hok
    subst hvals
    rw [List.getElem?_map, hget]
    simp [tokValue, hsent, Dec.toRat]
  · intro un dfs b
    unfold combine_bkdy_output
    simp [List.mem_append, List.mem_filter]

/-- Claim C2 witness: the example impedance line carries the
nine-asterisk sentinel at token position one and its parsed value
is 0.0. -/
theorem c2_witness :
    extract_values exImpedanceLine 7
      = Except.ok [⟨12345, 5⟩, ⟨0, 0⟩, ⟨101000, 5⟩, ⟨999, 2⟩, ⟨8888, 1⟩, ⟨9999, 1⟩, ⟨1234, 1⟩]
    ∧ (scanAll (pyReplace exImpedanceLine nanTok nanRep))[1]? = some (3, nineStars)
    ∧ sentinelTok nineStars = true
    ∧ ([⟨12345, 5⟩, ⟨0, 0⟩, ⟨101000, 5⟩, ⟨999, 2⟩, ⟨8888, 1⟩, ⟨9999, 1⟩,
        (⟨1234, 1⟩ : Dec)] : List Dec)[1]?.map Dec.toRat = some 0 := by
  refine ⟨rfl, rfl, rfl, ?_⟩
  exact c2_sentinel_zero_and_unreliable.1 exImpedanceLine 7 _ 1 3 nineStars rfl rfl rfl

/-- Claim C2 counterexample: the example report holds a nine-asterisk
sentinel in the Thevenin X field of bus 100; the stored X value is 0.0
yet bus 100 is absent from the unreliable-faulted-buses list returned
by the combination step. -/
theorem c2_counterexample :
    ((getAssoc 100 exDf).bind (getAssoc BkdyFileOutput.x)).map Dec.toRat = some 0
    ∧ containsSub nineStars exImpedanceLine = true
    ∧ exceptOk (process_bkdy_output exReportLines) = true
    ∧ 100 ∉ (combine_bkdy_output [] [((1 : ℚ) / 100, exDf)]).2 := by
  have hx : (getAssoc 100 exDf).bind (getAssoc BkdyFileOutput.x) = some ⟨0, 0⟩ := by decide
  refine ⟨?_, rfl, rfl, by decide⟩
  rw [hx]
  simp [Dec.toRat]

/-- Claim C9 amended: a FAULT CURRENT line with exactly seven extracted
tokens is parsed with no exception and writes exactly the five mapped
output fields of the current-line column map (the initial symmetrical
current, the symmetrical breaking current, and the three sum-of-DC
method values for DC, asymmetrical and peak current). -/
theorem c9_current_line_five_fields (line : Chars) (b : Nat) (vals : List Dec)
    (h0 : containsSub startMarkC line = false)
    (h1 : containsSub currentMarkC line = true)
    (hb : b ≠ 0)
    (hv : extract_values line 7 = Except.ok vals)
    (hlen : vals.length = 7) :
    ∃ row : Row,
      processLine ⟨b, true, []⟩ line = Except.ok ⟨b, true, [(b, row)]⟩
      ∧ row.map Prod.fst
          = [BkdyFileOutput.ik11, BkdyFileOutput.ibsym, BkdyFileOutput.idc_method1,
             BkdyFileOutput.ibasym_method1, BkdyFileOutput.ip_method1]
      ∧ row.length = 5 := by
  rcases vals with _ | ⟨v0, _ | ⟨v1, _ | ⟨v2, _ | ⟨v3, _ | ⟨v4, _ | ⟨v5, _ | ⟨v6,
    _ | ⟨v7, tail⟩⟩⟩⟩⟩⟩⟩⟩ <;> simp only [List.length] at hlen <;> try omega
  refine ⟨[(BkdyFileOutput.ik11, v0.divP10 BkdyFileOutput.kA_pow),
      (BkdyFileOutput.ibsym, v2.divP10 BkdyFileOutput.kA_pow),
      (BkdyFileOutput.idc_method1, v4.divP10 BkdyFileOutput.kA_pow),
      (BkdyFileOutput.ibasym_method1, v5.divP10 BkdyFileOutput.kA_pow),
      (BkdyFileOutput.ip_method1, v6.divP10 BkdyFileOutput.kA_pow)], ?_, rfl, rfl⟩
  unfold processLine
  rw [h0, h1, hv]
  simp [hb, writeCols, dfSet, updAssoc, getAssoc, BkdyFileOutput.currentCols,
    BkdyFileOutput.ik11, BkdyFileOutput.ibsym, BkdyFileOutput.idc_method1,
    BkdyFileOutput.ibasym_method1, BkdyFileOutput.ip_method1]

/-- Claim C9 witness: the example FAULT CURRENT line with its seven
extracted values, at bus 100. -/
theorem c9_witness :
    containsSub startMarkC exCurrentLine = false
    ∧ containsSub currentMarkC exCurrentLine = true
    ∧ (100 : ℕ) ≠ 0
    ∧ extract_values exCurrentLine 7
      = Except.ok [⟨1111, 1⟩, ⟨2222, 2⟩, ⟨3333, 1⟩, ⟨4444, 2⟩, ⟨5555, 1⟩, ⟨6666, 1⟩, ⟨7777, 1⟩]
    ∧ ∃ row : Row,
        processLine ⟨100, true, []⟩ exCurrentLine = Except.ok ⟨100, true, [(100, row)]⟩
        ∧ row.map Prod.fst
            = [BkdyFileOutput.ik11, BkdyFileOutput.ibsym, BkdyFileOutput.idc_method1,
               BkdyFileOutput.ibasym_method1, BkdyFileOutput.ip_method1]
        ∧ row.length = 5 := by
  refine ⟨rfl, rfl, by decide, rfl, ?_⟩
  exact c9_current_line_five_fields exCurrentLine 100 _ rfl rfl (by decide) rfl rfl

/-- Claim C9 counterexample: the row written from the example FAULT
CURRENT line holds five fields, not the three fields the claim states. -/
theorem c9_counterexample :
    exceptOk (processLine ⟨100, true, []⟩ exCurrentLine) = true
    ∧ ((getAssoc 100
          ((processLine ⟨100, true, []⟩ exCurrentLine).toOption.getD ⟨0, false, []⟩).df).getD
        []).length = 5
    ∧ ¬ ((getAssoc 100
          ((processLine ⟨100, true, []⟩ exCurrentLine).toOption.getD ⟨0, false, []⟩).df).getD
        []).length = 3 := by
  refine ⟨rfl, by decide, by decide⟩

/-- Claim C10 witness: a concrete one-table combination with a negative
reactance at bus 5. -/
theorem c10_witness :
    5 ∈ combinedBuses [((1 : ℚ) / 100, [(5, [(BkdyFileOutput.x, ⟨-1, 1⟩)])])]
    ∧ busHasNegX [((1 : ℚ) / 100, [(5, [(BkdyFileOutput.x, ⟨-1, 1⟩)])])] 5 = true
    ∧ 5 ∈ (combine_bkdy_output []
        [((1 : ℚ) / 100, [(5, [(BkdyFileOutput.x, ⟨-1, 1⟩)])])]).2
    ∧ 5 ∈ (combine_bkdy_output []
        [((1 : ℚ) / 100, [(5, [(BkdyFileOutput.x, ⟨-1, 1⟩)])])]).1 := by
  refine ⟨by decide, by decide, ?_⟩
  have h := c10_negative_x_unreliable []
    [((1 : ℚ) / 100, [(5, [(BkdyFileOutput.x, ⟨-1, 1⟩)])])] 5 (by decide) (by decide)
  exact ⟨h.1, h.2⟩

end G74Embed
